import Mathlib

/-!
Verification development for `sdkit/generate/image_generator.py`
(`generate_images`, `txt2img`, `img2img`, `make_with_diffusers`, `get_image`).

The Python functions are shallowly embedded as executable Lean
definitions.  External collaborators (PIL, torch, the diffusers
pipelines, compel, the sampler module) are passed in as an explicit
`Env` of abstract functions, or — where the specification fixes their
boundary behaviour — given as concrete definitions marked
`Modelled from the spec:`.
-/

/-- An in-memory PIL image handle (opaque; identified by an id). -/
structure PILImage where
  id : Nat
  deriving DecidableEq, Repr

/-- A latent tensor (opaque; identified by an id). -/
structure Latent where
  id : Nat
  deriving DecidableEq, Repr

/-- An output image.  `colorApplied` counts how many times
`apply_color_profile` has been applied to this image by the generator. -/
structure Image where
  id : Nat
  colorApplied : Nat
  deriving DecidableEq, Repr

/-- A conditioning tensor: a sequence of (abstracted) token embeddings.
Its length is the token sequence length. -/
abbrev Cond := List Rat

/-- A Python value that may be passed for `init_image` / `init_image_mask`:
`None`, an in-memory image, or a string (path or inline base64 data). -/
inductive ImgVal where
  | pil (img : PILImage)
  | str (s : String)
  | none
  deriving DecidableEq, Repr

/-- Python truthiness of an `ImgVal` (used by `if init_image:` in
`make_with_diffusers`): `None` and the empty string are falsy. -/
def ImgVal.truthy : ImgVal → Bool
  | .pil _ => true
  | .str s => !s.isEmpty
  | .none => false

/-- Exceptions raised by the embedded code. -/
inductive Err where
  | modelNotLoaded (msg : String)
  | keyError (key : String)
  | attributeError (msg : String)
  | unsupportedOperation (inpaintingOnly : Bool) (msg : String)
  | unsupportedSampler (msg : String)
  deriving DecidableEq, Repr

/-- The concrete diffusers pipeline class of a value stored in the model
dict: used by the `isinstance` checks of `make_with_diffusers`
(lines 240-246).  `otherT` covers every other class (the text-to-image
pipeline, the compel object, ...). -/
inductive PipelineClass where
  | img2imgT
  | inpaintLegacyT
  | inpaintT
  | otherT
  deriving DecidableEq, Repr

/-- The model dict stored under `context.models["stable-diffusion"]` on
the diffusers path: keys (operation names and "compel") paired with the
class of the stored object. -/
abbrev SDModel := List (String × PipelineClass)

/-- The dict stored under `context.models["hypernetwork"]`, restricted
to the one key the generator touches. -/
structure HyperModel where
  hypernetwork_strength : Rat
  deriving DecidableEq, Repr

/-- The serving context, restricted to the fields read or written by the
image generator.  Dict keys of `context.models` become `Option` fields;
`hasattr(context, "_last_lora_alpha")` becomes `last_lora_alpha ≠ none`.
`loraWeights` abstracts the patched model weights (see
`apply_lora_model`). -/
structure Context where
  sdModel : Option SDModel
  hypernetwork : Option HyperModel
  lora : Bool
  test_diffusers : Bool
  half_precision : Bool
  init_image_latent : Option Latent
  init_image_mask_tensor : Option Latent
  last_lora_alpha : Option Rat
  loraWeights : Rat
  deriving DecidableEq, Repr

/-- The keyword-argument dict built by `make_with_diffusers` and passed
to the selected pipeline.  A key that may be deleted or absent is an
`Option` field (`none` = key absent). -/
structure Cmd where
  guidance_scale : Rat
  seedUsed : Int
  width : Option Nat
  height : Option Nat
  num_inference_steps : Nat
  num_images_per_prompt : Nat
  image : Option PILImage
  strength : Option Rat
  mask_image : Option PILImage
  callbackSet : Bool
  prompt_embeds : Option Cond
  negative_prompt_embeds : Option Cond
  deriving DecidableEq, Repr

/-- The native-path sampler parameter dict (`common_sampler_params` of
`generate_images`, plus the per-operation updates made by `txt2img` and
`img2img`). -/
structure SampleParams where
  sampler_name : String
  seed : Int
  batch_size : Nat
  shape : List Nat
  cond : Cond
  uncond : Cond
  guidance_scale : Rat
  steps : Option Nat
  init_image_latent : Option Latent
  mask : Option Latent
  prompt_strength : Option Rat
  deriving DecidableEq, Repr

/-- A `generate_images` request: the keyword arguments of the Python
entry point. -/
structure Request where
  prompt : String
  negative_prompt : String
  seed : Int
  width : Nat
  height : Nat
  num_outputs : Nat
  num_inference_steps : Nat
  guidance_scale : Rat
  init_image : ImgVal
  init_image_mask : ImgVal
  prompt_strength : Rat
  preserve_init_image_color_profile : Bool
  sampler_name : String
  hypernetwork_strength : Rat
  lora_alpha : Rat
  deriving DecidableEq, Repr

/-- Observable steps performed by `generate_images`, in execution
order. -/
inductive Ev where
  | seedEverything (seed : Int)
  | selectPrecision (half : Bool)
  | raiseModelNotLoaded
  | delegateDiffusers
  | setHypernetworkStrength (v : Rat)
  | encodeConditioning
  | runSampler
  | clearLatentState
  deriving DecidableEq, Repr

/-- The external collaborators of the generator, as abstract functions:
PIL decoding/opening, image conversion/resizing, the alternate-backend
sampler registry (`diffusers_samplers.samplers.get`), the pipeline
invocation, the compel text encoder, the LoRA weight delta, the native
conditioning encoder, the native sampling loop, and the latent/mask
encoder. -/
structure Env where
  base64_str_to_img : String → PILImage
  openImage : String → PILImage
  pathExists : String → Bool
  convertRGB : PILImage → PILImage
  resize_img : PILImage → Nat → Nat → Bool → PILImage
  samplers : String → Option Nat
  runPipeline : Cmd → List Image
  compel : String → Cond
  loraDelta : Rat
  get_cond_and_uncond : String → String → Nat → Cond × Cond
  make_samples : Context → SampleParams → Except Err (List Latent)
  get_image_latent_and_mask :
    ImgVal → ImgVal → Nat → Nat → Nat → Option Latent × Option Latent

/-- Embeds Python `str.startswith`, at the character level. -/
def py_startswith (s p : String) : Bool :=
  p.data.isPrefixOf s.data

/-- Embeds `get_image` (image_generator.py lines 297-309): a non-string
input is returned unchanged; a string starting with "data:image" is
decoded as inline base64 data; a string naming an existing path is
opened as a file; any other string falls off the end of the function,
returning `None`. -/
def get_image (env : Env) (img : ImgVal) : ImgVal :=
  match img with
  | .str s =>
    if py_startswith s "data:image" then .pil (env.base64_str_to_img s)
    else if env.pathExists s then .pil (env.openImage s)
    else .none
  | v => v

/-- Embeds the operation selection of `make_with_diffusers`
(lines 218-221): `"inpainting" if init_image_mask else "img2img"` when
`init_image` is truthy, else `"txt2img"`. -/
def operation_to_apply (init_image init_image_mask : ImgVal) : String :=
  if init_image.truthy then
    if init_image_mask.truthy then "inpainting" else "img2img"
  else "txt2img"

/-- The two native-path generation functions. -/
inductive GenFn where
  | txt2imgFn
  | img2imgFn
  deriving DecidableEq, Repr

/-- Embeds line 89 of `generate_images`:
`generate_fn = txt2img if init_image is None else img2img`. -/
def native_generate_fn (init_image : ImgVal) : GenFn :=
  match init_image with
  | .none => .txt2imgFn
  | _ => .img2imgFn

/-- Modelled from the spec: `apply_lora_model` (sdkit model loader, not
under src/) applies the registered adapter as a linear weight delta
scaled by `alpha` — "a patch is a linear delta and is idempotently
reversible only via its exact negation". -/
def apply_lora_model (env : Env) (c : Context) (alpha : Rat) : Context :=
  { c with loraWeights := c.loraWeights + alpha * env.loraDelta }

/-- Embeds the LoRA patch block of `make_with_diffusers`
(lines 250-257): if a LoRA is registered, first undo the previously
applied strength (negate and reapply) when one is recorded, then apply
the requested strength and record it. -/
def lora_patch_step (env : Env) (c : Context) (lora_alpha : Rat) : Context :=
  if c.lora then
    let c1 :=
      match c.last_lora_alpha with
      | some last => apply_lora_model env c (-last)
      | Option.none => c
    let c2 := apply_lora_model env c1 lora_alpha
    { c2 with last_lora_alpha := some lora_alpha }
  else c

/-- Modelled from the spec: `latent_samples_to_images` (sdkit.utils, not
under src/) decodes each latent sample to an output image; a freshly
decoded image has had no color-profile transfers applied. -/
def latent_samples_to_images (samples : List Latent) : List Image :=
  samples.map fun l => { id := l.id, colorApplied := 0 }

/-- Modelled from the spec: `apply_color_profile` (sdkit.utils, not
under src/) transfers the color profile of the source image onto the
output image; modelled as incrementing the output image's count of
transfers applied. -/
def apply_color_profile (_src : ImgVal) (img : Image) : Image :=
  { img with colorApplied := img.colorApplied + 1 }

/-- Modelled from the spec: compel's
`pad_conditioning_tensors_to_same_length` (external library): the
shorter of the two conditioning tensors is padded (with zero embeddings)
to the length of the longer. -/
def pad_conditioning_tensors_to_same_length (a b : Cond) : Cond × Cond :=
  if a.length ≤ b.length then
    (a ++ List.replicate (b.length - a.length) 0, b)
  else
    (a, b ++ List.replicate (a.length - b.length) 0)

/-- The message of the `RuntimeError` raised by `generate_images` when
the stable-diffusion model is missing (lines 54-57). -/
def model_not_loaded_msg : String :=
  "The model for Stable Diffusion has not been loaded yet! If you\x27ve tried to load it, please check the logs above this message for errors (while loading the model)."

/-- The message of the `RuntimeError` raised when the model supports
only inpainting (lines 224-227). -/
def unsupported_op_msg_inpaint (op : String) : String :=
  "This model does not support " ++ op ++ "! This model requires an initial image and mask."

/-- The message of the generic `NotImplementedError` for an unsupported
operation (lines 229-231). -/
def unsupported_op_msg_generic (op : String) (keys : List String) : String :=
  "This model does not support " ++ op ++ "! Supported operations: " ++ toString keys

/-- The message of the `NotImplementedError` raised for an unknown
sampler name on the diffusers path (line 235). -/
def unsupported_sampler_msg (name : String) : String :=
  "The sampler \x27" ++ name ++ "\x27 is not supported (yet)!"

/-- Embeds the per-pipeline-class `cmd` adaptation of
`make_with_diffusers` (lines 240-246): image-to-image-class pipelines
(including the legacy inpainting pipeline) drop `width`/`height`; the
inpainting pipeline drops `strength`.  Deleting an absent dict key is a
Python `KeyError`. -/
def adapt_cmd (cls : PipelineClass) (cmd : Cmd) : Except Err Cmd :=
  match cls with
  | .inpaintLegacyT | .img2imgT =>
    match cmd.width, cmd.height with
    | some _, some _ => .ok { cmd with width := Option.none, height := Option.none }
    | _, _ => .error (.keyError "width")
  | .inpaintT =>
    match cmd.strength with
    | some _ => .ok { cmd with strength := Option.none }
    | Option.none => .error (.keyError "strength")
  | .otherT => .ok cmd

/-- Embeds `make_with_diffusers` lines 202-248: build the `cmd` dict
(resolving, converting and resizing the source image and mask), select
the operation from the request shape, check the model supports it,
check the sampler registry, adapt `cmd` to the pipeline class, and set
the callback entry.  Raising is returning `.error`; the context is not
mutated in this region. -/
def diffusers_precheck (env : Env) (model : SDModel) (r : Request) : Except Err Cmd :=
  let cmd0 : Cmd :=
    { guidance_scale := r.guidance_scale
      seedUsed := r.seed
      width := some r.width
      height := some r.height
      num_inference_steps := r.num_inference_steps
      num_images_per_prompt := r.num_outputs
      image := Option.none
      strength := Option.none
      mask_image := Option.none
      callbackSet := false
      prompt_embeds := Option.none
      negative_prompt_embeds := Option.none }
  let stepI : Except Err Cmd :=
    if r.init_image.truthy then
      match get_image env r.init_image with
      | .pil i =>
        .ok { cmd0 with
                image := some (env.resize_img (env.convertRGB i) r.width r.height true)
                strength := some r.prompt_strength }
      | _ => .error (.attributeError "convert")
    else .ok cmd0
  match stepI with
  | .error e => .error e
  | .ok cmd1 =>
    let stepM : Except Err Cmd :=
      if r.init_image_mask.truthy then
        match get_image env r.init_image_mask with
        | .pil m =>
          .ok { cmd1 with
                  mask_image := some (env.resize_img (env.convertRGB m) r.width r.height true) }
        | _ => .error (.attributeError "convert")
      else .ok cmd1
    match stepM with
    | .error e => .error e
    | .ok cmd2 =>
      let op := operation_to_apply r.init_image r.init_image_mask
      match List.lookup op model with
      | Option.none =>
        if (List.lookup "inpainting" model).isSome && model.length == 1 then
          .error (.unsupportedOperation true (unsupported_op_msg_inpaint op))
        else
          .error (.unsupportedOperation false
                    (unsupported_op_msg_generic op (model.map Prod.fst)))
      | some cls =>
        match env.samplers r.sampler_name with
        | Option.none => .error (.unsupportedSampler (unsupported_sampler_msg r.sampler_name))
        | some _ =>
          match adapt_cmd cls cmd2 with
          | .error e => .error e
          | .ok cmd3 => .ok { cmd3 with callbackSet := true }

/-- Embeds `make_with_diffusers` lines 259-286: encode the positive and
negative prompts with compel and pad the two conditioning tensors to
the same length before storing them in `cmd`. -/
def attach_embeds (env : Env) (r : Request) (cmd : Cmd) : Cmd :=
  let pe := env.compel r.prompt
  let ne := env.compel r.negative_prompt
  let padded := pad_conditioning_tensors_to_same_length pe ne
  { cmd with
      prompt_embeds := some padded.1
      negative_prompt_embeds := some padded.2 }

/-- Embeds `make_with_diffusers` (lines 164-292) up to — but not
including — the final pipeline invocation: everything that can raise
runs first with the context unchanged; then the LoRA patch block
mutates the context; then the compel object is looked up in the model
dict (line 262, a `KeyError` if absent) and the padded conditioning
tensors are attached.  Returns the final `cmd` and the possibly-mutated
context. -/
def make_with_diffusers_cmd (env : Env) (c : Context) (r : Request) :
    Except Err Cmd × Context :=
  match c.sdModel with
  | Option.none => (.error (.keyError "stable-diffusion"), c)
  | some model =>
    match diffusers_precheck env model r with
    | .error e => (.error e, c)
    | .ok cmd =>
      let c1 := lora_patch_step env c r.lora_alpha
      match List.lookup "compel" model with
      | Option.none => (.error (.keyError "compel"), c1)
      | some _ => (.ok (attach_embeds env r cmd), c1)

/-- Embeds `make_with_diffusers` (lines 164-294): build the final
command, then invoke the selected pipeline on it (line 294,
`operation_to_apply(**cmd).images`). -/
def make_with_diffusers (env : Env) (c : Context) (r : Request) :
    Except Err (List Image) × Context :=
  match make_with_diffusers_cmd env c r with
  | (.ok cmd, c1) => (.ok (env.runPipeline cmd), c1)
  | (.error e, c1) => (.error e, c1)

/-- Embeds `txt2img` (lines 113-121): set `steps` on the sampler
parameters, run the sampling loop, decode the latents to images.  The
context is not mutated. -/
def txt2img (env : Env) (c : Context) (params : SampleParams) (r : Request) :
    Except Err (List Image) × Context :=
  let params := { params with steps := some r.num_inference_steps }
  match env.make_samples c params with
  | .error e => (.error e, c)
  | .ok samples => (.ok (latent_samples_to_images samples), c)

/-- Embeds `img2img` (lines 124-161): resolve the source image and mask,
lazily populate the request-scoped latent cache
(`context.init_image_latent`, `context.init_image_mask_tensor`), extend
the sampler parameters, run the sampling loop, decode, and — when the
color-profile-preservation flag is set — apply the source color profile
to each output image. -/
def img2img (env : Env) (c : Context) (params : SampleParams) (r : Request) :
    Except Err (List Image) × Context :=
  let init_image := get_image env r.init_image
  let init_image_mask := get_image env r.init_image_mask
  let c :=
    if c.init_image_latent = Option.none then
      let lm := env.get_image_latent_and_mask init_image init_image_mask
                  r.width r.height r.num_outputs
      { c with init_image_latent := lm.1, init_image_mask_tensor := lm.2 }
    else c
  let params :=
    { params with
        steps := some r.num_inference_steps
        init_image_latent := c.init_image_latent
        mask := c.init_image_mask_tensor
        prompt_strength := some r.prompt_strength }
  match env.make_samples c params with
  | .error e => (.error e, c)
  | .ok samples =>
    let images := latent_samples_to_images samples
    let images :=
      if r.preserve_init_image_color_profile then
        images.map fun img => apply_color_profile init_image img
      else images
    (.ok images, c)

/-- The outcome of one `generate_images` call: the returned images (or
the propagated exception), the final context, and the trace of steps
performed, in order. -/
structure GenOut where
  result : Except Err (List Image)
  ctx : Context
  trace : List Ev
  deriving Repr

/-- Embeds the `try` body of `generate_images` (lines 49-108): seed the
RNG, select the precision scope, check the model is loaded, delegate to
the diffusers backend when configured, otherwise set the hypernetwork
strength (when registered), encode the conditioning, select the
generation function from `init_image`, build `common_sampler_params`,
and run one sampling pass. -/
def generate_images_body (env : Env) (c : Context) (r : Request) : GenOut :=
  let t := [Ev.seedEverything r.seed, Ev.selectPrecision c.half_precision]
  match c.sdModel with
  | Option.none =>
    ⟨.error (.modelNotLoaded model_not_loaded_msg), c, t ++ [.raiseModelNotLoaded]⟩
  | some _model =>
    if c.test_diffusers then
      let out := make_with_diffusers env c r
      ⟨out.1, out.2, t ++ [.delegateDiffusers]⟩
    else
      let ct : Context × List Ev :=
        match c.hypernetwork with
        | some _ =>
          ({ c with hypernetwork := some ⟨r.hypernetwork_strength⟩ },
           t ++ [.setHypernetworkStrength r.hypernetwork_strength])
        | Option.none => (c, t)
      let c1 := ct.1
      let t1 := ct.2
      let cu := env.get_cond_and_uncond r.prompt r.negative_prompt r.num_outputs
      let t2 := t1 ++ [.encodeConditioning]
      let params : SampleParams :=
        { sampler_name := r.sampler_name
          seed := r.seed
          batch_size := r.num_outputs
          shape := [4, r.height / 8, r.width / 8]
          cond := cu.1
          uncond := cu.2
          guidance_scale := r.guidance_scale
          steps := Option.none
          init_image_latent := Option.none
          mask := Option.none
          prompt_strength := Option.none }
      let out :=
        match native_generate_fn r.init_image with
        | .txt2imgFn => txt2img env c1 params r
        | .img2imgFn => img2img env c1 params r
      ⟨out.1, out.2, t2 ++ [.runSampler]⟩

/-- Embeds the `finally` block of `generate_images` (line 110):
`context.init_image_latent, context.init_image_mask_tensor = None, None`. -/
def clear_latent_state (c : Context) : Context :=
  { c with init_image_latent := Option.none, init_image_mask_tensor := Option.none }

/-- Embeds `generate_images` (lines 24-110): run the `try` body; on
every outcome — normal return, delegation, or a raised exception — the
`finally` block clears the request-scoped latent state before control
returns. -/
def generate_images (env : Env) (c : Context) (r : Request) : GenOut :=
  let out := generate_images_body env c r
  ⟨out.result, clear_latent_state out.ctx, out.trace ++ [.clearLatentState]⟩

/-! ### Concrete fixtures used by witnesses and counterexamples -/

/-- A concrete environment for witness evaluations. -/
def envW : Env :=
  { base64_str_to_img := fun _ => ⟨1⟩
    openImage := fun _ => ⟨2⟩
    pathExists := fun s => s == "/a"
    convertRGB := fun i => i
    resize_img := fun i _ _ _ => i
    samplers := fun s => if s == "euler_a" then some 0 else Option.none
    runPipeline := fun _ => [⟨9, 7⟩]
    compel := fun s => List.replicate s.length 0
    loraDelta := 1
    get_cond_and_uncond := fun _ _ _ => ([], [])
    make_samples := fun _ _ => .ok [⟨0⟩]
    get_image_latent_and_mask := fun _ _ _ _ _ => (some ⟨5⟩, Option.none) }

/-- A concrete native-path context with the stable-diffusion model
loaded. -/
def ctxW : Context :=
  { sdModel := some [("txt2img", .otherT), ("compel", .otherT)]
    hypernetwork := Option.none
    lora := false
    test_diffusers := false
    half_precision := false
    init_image_latent := Option.none
    init_image_mask_tensor := Option.none
    last_lora_alpha := Option.none
    loraWeights := 0 }

/-- A concrete context with no stable-diffusion model loaded. -/
def ctxNoModel : Context :=
  { ctxW with sdModel := Option.none }

/-- A concrete context on the alternate (diffusers) backend with a LoRA
registered. -/
def ctxLora : Context :=
  { ctxW with test_diffusers := true, lora := true }

/-- A concrete default request (text-to-image). -/
def reqW : Request :=
  { prompt := "ab"
    negative_prompt := "a"
    seed := 42
    width := 512
    height := 512
    num_outputs := 1
    num_inference_steps := 25
    guidance_scale := 15 / 2
    init_image := .none
    init_image_mask := .none
    prompt_strength := 4 / 5
    preserve_init_image_color_profile := false
    sampler_name := "euler_a"
    hypernetwork_strength := 0
    lora_alpha := 0 }

/-! ### Claim theorems -/

/-- C1: on every exit path of `generate_images` — normal return,
delegation to the diffusers backend, or an exception raised at any
stage — the request-scoped latent state (`context.init_image_latent`
and `context.init_image_mask_tensor`) is cleared before control
returns to the caller. -/
theorem generate_images_clears_latent_state (env : Env) (c : Context) (r : Request) :
    (generate_images env c r).ctx.init_image_latent = Option.none ∧
    (generate_images env c r).ctx.init_image_mask_tensor = Option.none := by
  simp [generate_images, clear_latent_state]

/-- C2: the operation kind is selected solely from the presence of the
source image and mask: no source image selects text-to-image on both
paths; a source image without a mask selects image-to-image on both
paths; on the alternate backend a source image together with a mask
selects the inpainting pipeline. -/
theorem operation_kind_selection (msk : ImgVal) (i m : PILImage) :
    native_generate_fn .none = .txt2imgFn ∧
    operation_to_apply .none msk = "txt2img" ∧
    native_generate_fn (.pil i) = .img2imgFn ∧
    operation_to_apply (.pil i) .none = "img2img" ∧
    operation_to_apply (.pil i) (.pil m) = "inpainting" :=
  ⟨rfl, rfl, rfl, rfl, rfl⟩

/-- C10: `get_image` returns any non-string input unchanged; a string
starting with "data:image" is decoded as inline base64 data; a string
naming an existing path is opened as a file; any other string yields
`None` rather than an error. -/
theorem get_image_resolution (env : Env) (i : PILImage) (s : String) :
    get_image env (.pil i) = .pil i ∧
    get_image env .none = .none ∧
    (py_startswith s "data:image" = true →
      get_image env (.str s) = .pil (env.base64_str_to_img s)) ∧
    (py_startswith s "data:image" = false → env.pathExists s = true →
      get_image env (.str s) = .pil (env.openImage s)) ∧
    (py_startswith s "data:image" = false → env.pathExists s = false →
      get_image env (.str s) = .none) := by
  refine ⟨rfl, rfl, ?_, ?_, ?_⟩
  · intro h1
    simp [get_image, h1]
  · intro h1 h2
    simp [get_image, h1, h2]
  · intro h1 h2
    simp [get_image, h1, h2]

/-- Witness for C10: concrete inputs exercising the three string
branches of `get_image`. -/
theorem get_image_resolution_witness :
    get_image envW (.str "data:image/png;base64,AA")
        = .pil (envW.base64_str_to_img "data:image/png;base64,AA") ∧
    get_image envW (.str "/a") = .pil (envW.openImage "/a") ∧
    get_image envW (.str "/b") = .none :=
  ⟨(get_image_resolution envW ⟨0⟩ "data:image/png;base64,AA").2.2.1 (by decide),
   (get_image_resolution envW ⟨0⟩ "/a").2.2.2.1 (by decide) (by decide),
   (get_image_resolution envW ⟨0⟩ "/b").2.2.2.2 (by decide) (by decide)⟩

/-- Counterexample to C3: with no stable-diffusion model loaded, the
ModelNotLoaded error is indeed raised, but only after the random source
has been seeded and the precision mode selected — contradicting the
claim that no other step is performed before the check fails. -/
theorem model_check_preceded_by_seeding :
    (generate_images envW ctxNoModel reqW).result
        = .error (.modelNotLoaded model_not_loaded_msg) ∧
    (generate_images envW ctxNoModel reqW).trace
        = [.seedEverything 42, .selectPrecision false,
           .raiseModelNotLoaded, .clearLatentState] :=
  ⟨rfl, rfl⟩

/-- C3 (amended): if the stable-diffusion model has not been loaded,
`generate_images` raises ModelNotLoaded before any model-dependent work
(delegation, adapter configuration, conditioning encoding, sampling);
however, the random source is seeded and the precision mode selected
before the check runs. -/
theorem model_not_loaded_raised_before_model_work
    (env : Env) (c : Context) (r : Request) (h : c.sdModel = Option.none) :
    (generate_images env c r).result
        = .error (.modelNotLoaded model_not_loaded_msg) ∧
    (generate_images env c r).trace
        = [.seedEverything r.seed, .selectPrecision c.half_precision,
           .raiseModelNotLoaded, .clearLatentState] := by
  simp [generate_images, generate_images_body, h]

/-- Witness for C3 (amended): the concrete no-model context. -/
theorem model_not_loaded_raised_before_model_work_witness :
    (generate_images envW ctxNoModel reqW).result
        = .error (.modelNotLoaded model_not_loaded_msg) ∧
    (generate_images envW ctxNoModel reqW).trace
        = [.seedEverything reqW.seed, .selectPrecision ctxNoModel.half_precision,
           .raiseModelNotLoaded, .clearLatentState] :=
  model_not_loaded_raised_before_model_work envW ctxNoModel reqW rfl

/-- C4: with a LoRA registered, running the patch block with strength A
and then strength B equals undoing A and then applying B from the
post-A state (strengths never accumulate: from a fresh context the
final weights carry only B); applying A and then undoing A restores the
original weights; and the tracked last-applied strength equals the most
recently requested strength after every patch block. -/
theorem lora_patch_undo_then_apply
    (env : Env) (c : Context) (A B : Rat) (h : c.lora = true) :
    (lora_patch_step env (lora_patch_step env c A) B).loraWeights
        = (apply_lora_model env
            (apply_lora_model env (lora_patch_step env c A) (-A)) B).loraWeights ∧
    (apply_lora_model env (apply_lora_model env c A) (-A)).loraWeights
        = c.loraWeights ∧
    (lora_patch_step env c A).last_lora_alpha = some A ∧
    (lora_patch_step env (lora_patch_step env c A) B).last_lora_alpha = some B ∧
    (c.last_lora_alpha = Option.none →
      (lora_patch_step env (lora_patch_step env c A) B).loraWeights
        = c.loraWeights + B * env.loraDelta) := by
  refine ⟨?_, by simp [apply_lora_model]; try ring, ?_, ?_, ?_⟩ <;>
    cases hl : c.last_lora_alpha <;>
      simp [lora_patch_step, apply_lora_model, h, hl]

/-- Witness for C4: concrete strengths 2 then 3 on a registered LoRA. -/
theorem lora_patch_undo_then_apply_witness :
    (lora_patch_step envW (lora_patch_step envW ctxLora 2) 3).loraWeights
        = (apply_lora_model envW
            (apply_lora_model envW (lora_patch_step envW ctxLora 2) (-2)) 3).loraWeights ∧
    (apply_lora_model envW (apply_lora_model envW ctxLora 2) (-2)).loraWeights
        = ctxLora.loraWeights ∧
    (lora_patch_step envW ctxLora 2).last_lora_alpha = some 2 ∧
    (lora_patch_step envW (lora_patch_step envW ctxLora 2) 3).last_lora_alpha = some 3 ∧
    (ctxLora.last_lora_alpha = Option.none →
      (lora_patch_step envW (lora_patch_step envW ctxLora 2) 3).loraWeights
        = ctxLora.loraWeights + 3 * envW.loraDelta) :=
  lora_patch_undo_then_apply envW ctxLora 2 3 rfl

/-- The two unsupported-operation messages differ for every operation
name and key list. -/
theorem unsupported_op_msgs_distinct (op : String) (ks : List String) :
    unsupported_op_msg_inpaint op ≠ unsupported_op_msg_generic op ks := by
  unfold unsupported_op_msg_inpaint unsupported_op_msg_generic
  intro h
  have h2 := congrArg String.data h
  simp only [String.data_append, List.append_assoc] at h2
  have h3 := List.append_cancel_left (List.append_cancel_left h2)
  have h4 := congrArg (fun l => l[2]?) h3
  simp at h4

/-- C5: on the alternate backend path, when the selected operation kind
is not exposed by the loaded model, the call fails with
UnsupportedOperation (the context unchanged), carrying the
only-inpainting flag and message exactly when the model supports only
inpainting (`"inpainting" in model and len(model) == 1`), and the
generic message otherwise; the two messages always differ. -/
theorem diffusers_unsupported_operation
    (env : Env) (c : Context) (r : Request) (m : SDModel)
    (hm : c.sdModel = some m)
    (hi : r.init_image = .none ∨ ∃ i, r.init_image = .pil i)
    (hk : r.init_image_mask = .none ∨ ∃ k, r.init_image_mask = .pil k)
    (hop : List.lookup (operation_to_apply r.init_image r.init_image_mask) m
            = Option.none) :
    (make_with_diffusers env c r).1
        = .error (.unsupportedOperation
            ((List.lookup "inpainting" m).isSome && m.length == 1)
            (if (List.lookup "inpainting" m).isSome && m.length == 1 then
              unsupported_op_msg_inpaint (operation_to_apply r.init_image r.init_image_mask)
            else
              unsupported_op_msg_generic (operation_to_apply r.init_image r.init_image_mask)
                (m.map Prod.fst))) ∧
    (make_with_diffusers env c r).2 = c ∧
    unsupported_op_msg_inpaint (operation_to_apply r.init_image r.init_image_mask)
      ≠ unsupported_op_msg_generic (operation_to_apply r.init_image r.init_image_mask)
          (m.map Prod.fst) := by
  have hmain : make_with_diffusers env c r
      = (.error (.unsupportedOperation
            ((List.lookup "inpainting" m).isSome && m.length == 1)
            (if (List.lookup "inpainting" m).isSome && m.length == 1 then
              unsupported_op_msg_inpaint (operation_to_apply r.init_image r.init_image_mask)
            else
              unsupported_op_msg_generic (operation_to_apply r.init_image r.init_image_mask)
                (m.map Prod.fst))), c) := by
    obtain hi | ⟨i, hi⟩ := hi <;> obtain hk | ⟨k, hk⟩ := hk
    · have hop2 : List.lookup "txt2img" m = Option.none := by
        rw [hi, hk] at hop; exact hop
      cases hb : ((List.lookup "inpainting" m).isSome && m.length == 1) <;>
        simp [make_with_diffusers, make_with_diffusers_cmd, diffusers_precheck, hm, hi, hk,
          get_image, ImgVal.truthy, operation_to_apply, hop2, hb]
    · have hop2 : List.lookup "txt2img" m = Option.none := by
        rw [hi, hk] at hop; exact hop
      cases hb : ((List.lookup "inpainting" m).isSome && m.length == 1) <;>
        simp [make_with_diffusers, make_with_diffusers_cmd, diffusers_precheck, hm, hi, hk,
          get_image, ImgVal.truthy, operation_to_apply, hop2, hb]
    · have hop2 : List.lookup "img2img" m = Option.none := by
        rw [hi, hk] at hop; exact hop
      cases hb : ((List.lookup "inpainting" m).isSome && m.length == 1) <;>
        simp [make_with_diffusers, make_with_diffusers_cmd, diffusers_precheck, hm, hi, hk,
          get_image, ImgVal.truthy, operation_to_apply, hop2, hb]
    · have hop2 : List.lookup "inpainting" m = Option.none := by
        rw [hi, hk] at hop; exact hop
      cases hb : ((List.lookup "inpainting" m).isSome && m.length == 1) <;>
        simp [make_with_diffusers, make_with_diffusers_cmd, diffusers_precheck, hm, hi, hk,
          get_image, ImgVal.truthy, operation_to_apply, hop2, hb]
      simp [hop2] at hb
  exact ⟨by rw [hmain], by rw [hmain], unsupported_op_msgs_distinct _ _⟩

/-- Helper: padding two conditioning tensors to the same length indeed
makes their lengths equal. -/
theorem pad_equalizes_lengths (a b : Cond) :
    (pad_conditioning_tensors_to_same_length a b).1.length
      = (pad_conditioning_tensors_to_same_length a b).2.length := by
  unfold pad_conditioning_tensors_to_same_length
  split <;> simp <;> omega

/-- C7: on the alternate backend path, whenever the final command is
built (and hence passed to the pipeline invocation), its positive and
negative conditioning tensors are present and have equal sequence
length — the shorter was padded to match the longer. -/
theorem diffusers_embeds_padded_before_invocation
    (env : Env) (c : Context) (r : Request) (cmd : Cmd) (c1 : Context)
    (h : make_with_diffusers_cmd env c r = (.ok cmd, c1)) :
    ∃ p n, cmd.prompt_embeds = some p ∧ cmd.negative_prompt_embeds = some n ∧
      p.length = n.length := by
  unfold make_with_diffusers_cmd at h
  split at h
  · simp at h
  · split at h
    · simp at h
    · split at h
      · simp at h
      · simp only [Prod.mk.injEq, Except.ok.injEq] at h
        obtain ⟨hcmd, -⟩ := h
        subst hcmd
        exact ⟨_, _, rfl, rfl, pad_equalizes_lengths _ _⟩

/-- C6: on the alternate backend path, if the requested sampler name is
absent from the alternate-backend sampler registry (and the selected
operation is supported, which is checked first), the call raises
UnsupportedSampler and returns no output images; the context is
unchanged. -/
theorem diffusers_unsupported_sampler
    (env : Env) (c : Context) (r : Request) (m : SDModel) (cls : PipelineClass)
    (hm : c.sdModel = some m)
    (hi : r.init_image = .none ∨ ∃ i, r.init_image = .pil i)
    (hk : r.init_image_mask = .none ∨ ∃ k, r.init_image_mask = .pil k)
    (hop : List.lookup (operation_to_apply r.init_image r.init_image_mask) m
            = some cls)
    (hs : env.samplers r.sampler_name = Option.none) :
    (make_with_diffusers env c r).1
        = .error (.unsupportedSampler (unsupported_sampler_msg r.sampler_name)) ∧
    (∀ imgs, (make_with_diffusers env c r).1 ≠ .ok imgs) ∧
    (make_with_diffusers env c r).2 = c := by
  have hmain : make_with_diffusers env c r
      = (.error (.unsupportedSampler (unsupported_sampler_msg r.sampler_name)), c) := by
    obtain hi | ⟨i, hi⟩ := hi <;> obtain hk | ⟨k, hk⟩ := hk
    · have hop2 : List.lookup "txt2img" m = some cls := by
        rw [hi, hk] at hop; exact hop
      simp [make_with_diffusers, make_with_diffusers_cmd, diffusers_precheck, hm, hi, hk,
        get_image, ImgVal.truthy, operation_to_apply, hop2, hs]
    · have hop2 : List.lookup "txt2img" m = some cls := by
        rw [hi, hk] at hop; exact hop
      simp [make_with_diffusers, make_with_diffusers_cmd, diffusers_precheck, hm, hi, hk,
        get_image, ImgVal.truthy, operation_to_apply, hop2, hs]
    · have hop2 : List.lookup "img2img" m = some cls := by
        rw [hi, hk] at hop; exact hop
      simp [make_with_diffusers, make_with_diffusers_cmd, diffusers_precheck, hm, hi, hk,
        get_image, ImgVal.truthy, operation_to_apply, hop2, hs]
    · have hop2 : List.lookup "inpainting" m = some cls := by
        rw [hi, hk] at hop; exact hop
      simp [make_with_diffusers, make_with_diffusers_cmd, diffusers_precheck, hm, hi, hk,
        get_image, ImgVal.truthy, operation_to_apply, hop2, hs]
  refine ⟨by rw [hmain], ?_, by rw [hmain]⟩
  intro imgs
  rw [hmain]
  simp

/-- A concrete one-pipeline model supporting only image-to-image. -/
def modelD5 : SDModel := [("img2img", .img2imgT)]

/-- A concrete diffusers-backend context whose model supports only
image-to-image. -/
def ctxD5 : Context := { ctxW with test_diffusers := true, sdModel := some modelD5 }

/-- Witness for C5: a text-to-image request against a model exposing
only the image-to-image pipeline. -/
theorem diffusers_unsupported_operation_witness :
    (make_with_diffusers envW ctxD5 reqW).1
        = .error (.unsupportedOperation
            ((List.lookup "inpainting" modelD5).isSome && modelD5.length == 1)
            (if (List.lookup "inpainting" modelD5).isSome && modelD5.length == 1 then
              unsupported_op_msg_inpaint (operation_to_apply reqW.init_image reqW.init_image_mask)
            else
              unsupported_op_msg_generic (operation_to_apply reqW.init_image reqW.init_image_mask)
                (modelD5.map Prod.fst))) ∧
    (make_with_diffusers envW ctxD5 reqW).2 = ctxD5 ∧
    unsupported_op_msg_inpaint (operation_to_apply reqW.init_image reqW.init_image_mask)
      ≠ unsupported_op_msg_generic (operation_to_apply reqW.init_image reqW.init_image_mask)
          (modelD5.map Prod.fst) :=
  diffusers_unsupported_operation envW ctxD5 reqW modelD5 rfl
    (Or.inl rfl) (Or.inl rfl) (by decide)

/-- A concrete diffusers-backend context with a text-to-image pipeline
and compel entry. -/
def ctxD7 : Context := { ctxW with test_diffusers := true }

/-- A concrete request naming a sampler absent from the registry. -/
def reqD6 : Request := { reqW with sampler_name := "unknown" }

/-- Witness for C6: a supported operation with an unknown sampler name. -/
theorem diffusers_unsupported_sampler_witness :
    (make_with_diffusers envW ctxD7 reqD6).1
        = .error (.unsupportedSampler (unsupported_sampler_msg reqD6.sampler_name)) ∧
    (∀ imgs, (make_with_diffusers envW ctxD7 reqD6).1 ≠ .ok imgs) ∧
    (make_with_diffusers envW ctxD7 reqD6).2 = ctxD7 :=
  diffusers_unsupported_sampler envW ctxD7 reqD6
    [("txt2img", .otherT), ("compel", .otherT)] .otherT rfl
    (Or.inl rfl) (Or.inl rfl) (by decide) (by decide)

/-- The concrete final command built for `reqW` on `ctxD7`: the
negative conditioning tensor (one embedding) was padded to the length
of the positive one (two embeddings). -/
def cmdD7 : Cmd :=
  { guidance_scale := 15 / 2
    seedUsed := 42
    width := some 512
    height := some 512
    num_inference_steps := 25
    num_images_per_prompt := 1
    image := Option.none
    strength := Option.none
    mask_image := Option.none
    callbackSet := true
    prompt_embeds := some [0, 0]
    negative_prompt_embeds := some [0, 0] }

/-- Witness for C7: the concrete final command has equal-length padded
conditioning tensors. -/
theorem diffusers_embeds_padded_before_invocation_witness :
    ∃ p n, cmdD7.prompt_embeds = some p ∧ cmdD7.negative_prompt_embeds = some n ∧
      p.length = n.length :=
  diffusers_embeds_padded_before_invocation envW ctxD7 reqW cmdD7 ctxD7 rfl

/-- Helper: `txt2img` output images have had no color-profile transfer
applied. -/
theorem txt2img_color_count (env : Env) (c : Context) (p : SampleParams) (r : Request)
    (imgs : List Image) (h : (txt2img env c p r).1 = .ok imgs) :
    ∀ img ∈ imgs, img.colorApplied = 0 := by
  simp only [txt2img] at h
  split at h
  · simp at h
  · simp only [Except.ok.injEq] at h
    subst h
    intro img hmem
    simp only [latent_samples_to_images, List.mem_map] at hmem
    obtain ⟨l, -, rfl⟩ := hmem
    rfl

/-- Helper: `img2img` output images have had the color-profile transfer
applied exactly once when the preservation flag is set, and not at all
otherwise. -/
theorem img2img_color_count (env : Env) (c : Context) (p : SampleParams) (r : Request)
    (imgs : List Image) (h : (img2img env c p r).1 = .ok imgs) :
    ∀ img ∈ imgs,
      img.colorApplied = if r.preserve_init_image_color_profile then 1 else 0 := by
  simp only [img2img] at h
  split at h
  · simp at h
  · simp only [Except.ok.injEq] at h
    subst h
    intro img hmem
    split at hmem
    · next hflag =>
      simp only [List.mem_map] at hmem
      obtain ⟨l, hl, rfl⟩ := hmem
      simp only [latent_samples_to_images, List.mem_map] at hl
      obtain ⟨t, -, rfl⟩ := hl
      simp [hflag, apply_color_profile]
    · next hflag =>
      simp only [latent_samples_to_images, List.mem_map] at hmem
      obtain ⟨l, -, rfl⟩ := hmem
      simp [hflag]

/-- Helper: the native dispatch selects `txt2img` exactly for a `None`
source image. -/
theorem native_generate_fn_eq_txt2img (v : ImgVal) :
    native_generate_fn v = .txt2imgFn ↔ v = .none := by
  cases v <;> simp [native_generate_fn]

/-- C8: on the native path, color-profile transfer is applied exactly
once per output image when the preservation flag is set and a source
image was supplied, and zero times otherwise; in particular it is never
applied to text-to-image results (requests with no source image). -/
theorem color_profile_applied_iff_flag_and_source
    (env : Env) (c : Context) (r : Request)
    (htd : c.test_diffusers = false) :
    ∀ imgs, (generate_images env c r).result = .ok imgs →
      ∀ img ∈ imgs,
        img.colorApplied =
          if r.preserve_init_image_color_profile = true ∧ r.init_image ≠ ImgVal.none
          then 1 else 0 := by
  intro imgs h img hmem
  simp only [generate_images] at h
  unfold generate_images_body at h
  split at h
  · simp at h
  · simp only [htd, Bool.false_eq_true, if_false] at h
    split at h
    · next hfn =>
      have hnone : r.init_image = ImgVal.none :=
        (native_generate_fn_eq_txt2img r.init_image).mp hfn
      rw [if_neg (by simp [hnone])]
      exact txt2img_color_count _ _ _ _ _ h img hmem
    · next hfn =>
      have hne : r.init_image ≠ ImgVal.none := by
        intro hc
        rw [hc] at hfn
        simp [native_generate_fn] at hfn
      have hcount := img2img_color_count _ _ _ _ _ h img hmem
      cases hflag : r.preserve_init_image_color_profile
      · rw [if_neg (by simp [hflag])]
        rw [hflag] at hcount
        simpa using hcount
      · rw [if_pos ⟨rfl, hne⟩]
        rw [hflag] at hcount
        simpa using hcount

/-- A concrete image-to-image request with the color-preservation flag
set. -/
def reqC8 : Request :=
  { reqW with init_image := .pil ⟨5⟩, preserve_init_image_color_profile := true }

/-- Witness for C8: the concrete image-to-image run exercises the
flag-and-source case, and its output image carries exactly one
color-profile transfer. -/
theorem color_profile_applied_iff_flag_and_source_witness :
    (Image.mk 0 1).colorApplied =
      if reqC8.preserve_init_image_color_profile = true ∧ reqC8.init_image ≠ ImgVal.none
      then 1 else 0 :=
  color_profile_applied_iff_flag_and_source envW ctxW reqC8 rfl [⟨0, 1⟩] rfl
    (Image.mk 0 1) (by decide)

/-- Helper: `txt2img` does not touch the hypernetwork model entry. -/
theorem txt2img_preserves_hypernetwork (env : Env) (c : Context) (p : SampleParams)
    (r : Request) : (txt2img env c p r).2.hypernetwork = c.hypernetwork := by
  simp only [txt2img]
  split <;> rfl

/-- Helper: `img2img` does not touch the hypernetwork model entry. -/
theorem img2img_preserves_hypernetwork (env : Env) (c : Context) (p : SampleParams)
    (r : Request) : (img2img env c p r).2.hypernetwork = c.hypernetwork := by
  simp only [img2img]
  split <;> first | rfl | (split <;> first | rfl | (split <;> rfl))

/-- Helper: the LoRA patch block does not touch the hypernetwork model
entry. -/
theorem lora_patch_step_preserves_hypernetwork (env : Env) (c : Context) (a : Rat) :
    (lora_patch_step env c a).hypernetwork = c.hypernetwork := by
  simp only [lora_patch_step, apply_lora_model]
  split <;> first | rfl | (split <;> rfl)

/-- Helper: building the diffusers command does not touch the
hypernetwork model entry. -/
theorem make_with_diffusers_cmd_preserves_hypernetwork (env : Env) (c : Context)
    (r : Request) : (make_with_diffusers_cmd env c r).2.hypernetwork = c.hypernetwork := by
  simp only [make_with_diffusers_cmd]
  split
  · rfl
  · split
    · rfl
    · split
      · exact lora_patch_step_preserves_hypernetwork env c r.lora_alpha
      · exact lora_patch_step_preserves_hypernetwork env c r.lora_alpha

/-- Helper: the alternate backend does not touch the hypernetwork model
entry. -/
theorem make_with_diffusers_preserves_hypernetwork (env : Env) (c : Context)
    (r : Request) : (make_with_diffusers env c r).2.hypernetwork = c.hypernetwork := by
  have h := make_with_diffusers_cmd_preserves_hypernetwork env c r
  simp only [make_with_diffusers]
  split <;> rename_i a b heq <;> (rw [heq] at h; exact h)

/-- C9: on the native path, when a hypernetwork is registered and a
nonzero strength is requested, the adapter's runtime strength parameter
is set to the requested strength; and when the alternate backend
handles the request, the coordinator leaves the hypernetwork entry
untouched — the two steps are mutually exclusive. -/
theorem hypernetwork_strength_setting (env : Env) (c : Context) (r : Request) :
    (c.test_diffusers = false → (∃ m, c.sdModel = some m) →
      (∃ hm, c.hypernetwork = some hm) → r.hypernetwork_strength ≠ 0 →
      (generate_images env c r).ctx.hypernetwork = some ⟨r.hypernetwork_strength⟩) ∧
    (c.test_diffusers = true →
      (generate_images env c r).ctx.hypernetwork = c.hypernetwork) := by
  constructor
  · rintro htd ⟨m, hm⟩ ⟨hmod, hh⟩ -
    simp only [generate_images, clear_latent_state]
    unfold generate_images_body
    rw [hm]
    simp only [htd, Bool.false_eq_true, if_false, hh]
    split
    · rw [txt2img_preserves_hypernetwork]
    · rw [img2img_preserves_hypernetwork]
  · intro htd
    simp only [generate_images, clear_latent_state]
    unfold generate_images_body
    split
    · rfl
    · simp only [htd, if_true]
      exact make_with_diffusers_preserves_hypernetwork env c r

/-- A concrete native context with a registered hypernetwork. -/
def ctxHyp : Context := { ctxW with hypernetwork := some ⟨1⟩ }

/-- A concrete request with a nonzero hypernetwork strength. -/
def reqHyp : Request := { reqW with hypernetwork_strength := 2 }

/-- Witness for C9: a native run that sets the strength, and a
diffusers-backend run that leaves the hypernetwork entry untouched. -/
theorem hypernetwork_strength_setting_witness :
    (generate_images envW ctxHyp reqHyp).ctx.hypernetwork
        = some ⟨reqHyp.hypernetwork_strength⟩ ∧
    (generate_images envW ctxD7 reqW).ctx.hypernetwork = ctxD7.hypernetwork :=
  ⟨(hypernetwork_strength_setting envW ctxHyp reqHyp).1 rfl ⟨_, rfl⟩ ⟨_, rfl⟩
      (by norm_num [reqHyp]),
   (hypernetwork_strength_setting envW ctxD7 reqW).2 rfl⟩
